import Mathlib

/-!
Verification of `cmd/repocket.go` of repocket.

The command-line program authenticates against the bookmarking service, queries the
favourites and archives each article as a text file.  This file embeds the functions of
`cmd/repocket.go` as Lean functions over an explicit world (a file tree and a trace of the
calls the program made) and proves properties of them.

Conventions of the embedding

* A Go `string` is a Lean `String`; `[]byte(s)` is the list of its characters.  Every
  character of the regular expression's class is ASCII, so matching bytes and matching
  characters agree.
* A Go `error` is an `Option String` (`none` is `nil`, `some e` carries `err.Error()`).
* `log.Fatal`/`log.Fatalf` end the process with exit status 1 (`Result.fatal`); a run-time
  panic ends it with exit status 2 (`Result.panic`).
* Everything outside the program (the renderer `w3m`, `envconfig`, the packages `pkg/pocket`
  and `pkg/repocket`, failures of `os.Create` and `io.WriteString`) is a field of `Env`: one
  `Env` fixes the answers of the environment during one run.
* `os.Stat` is answered by the file tree of the world; paths are compared as strings and
  symbolic links are not part of the tree.
-/

namespace Repocket

/-! ## Data model -/

/-- Modelled from the spec: the `pocket.Article` record of `pkg/pocket`, with the three
fields `cmd/repocket.go` reads (item identifier, resolved title, resolved URL). -/
structure Article where
  ItemId : String
  ResolvedTitle : String
  ResolvedUrl : String
  deriving DecidableEq, Repr

/-- Modelled from the spec: the `repocket.Config` record of `pkg/repocket`, with the three
fields `cmd/repocket.go` uses (consumer key, access token, output directory). -/
structure Config where
  ConsumerKey : String
  AccessToken : String
  OutputDir : String
  deriving DecidableEq, Repr

/-- What the file tree holds at a path: nothing, a regular file, a directory, or an entry
for which `os.Stat` fails with an error other than "does not exist" (permission denied on a
parent directory, a path component that is a file, ...). -/
inductive Node where
  | absent
  | file (contents : String)
  | dir
  | blocked (err : String)
  deriving DecidableEq, Repr

/-- The file tree: the node at every path. -/
abbrev FileSystem := String → Node

/-- The calls the program makes to the outside, in the order it makes them. -/
inductive Event where
  | stat (path : String)
  | w3mDump (url : String)
  | create (path : String)
  | write (path : String) (data : String)
  | log (msg : String)
  | envconfigProcess (pfx : String)
  | LoadLocalConfig
  | Authorize (consumerKey : String)
  | SaveLocalConfig (token : String)
  | QueryFavourites (token : String) (consumerKey : String)
  | QueryNewest (token : String) (consumerKey : String) (count : Nat)
  deriving DecidableEq, Repr

/-- The state a run threads through: the file tree and the trace of calls made so far. -/
structure World where
  fs : FileSystem
  trace : List Event

/-- How a function of the program ends: it returns a value, the process is ended by
`log.Fatal` (exit status 1), or the process is ended by a run-time panic (exit status 2). -/
inductive Result (α : Type) where
  | ok (a : α) (w : World)
  | fatal (msg : String) (w : World)
  | panic (msg : String) (w : World)

/-- How a call into a package that is not part of `cmd/repocket.go` ends. -/
inductive Call (α : Type) where
  | returns (a : α)
  | fatal (msg : String)
  | panics (msg : String)

/-- The answers of the environment during one run. -/
structure Env where
  /-- The call `exec.Command("w3m", "-dump", url).Output()`: the captured output and the
  error. -/
  w3mDump : String → String × Option String
  /-- A failure of `os.Create` on a path the tree would allow (no parent, no permission). -/
  createFails : String → Option String
  /-- A failure of `io.WriteString`: the number of characters written and the error. -/
  writeFails : String → String → Option (Nat × String)
  /-- The call `envconfig.Process(pfx, &cfg)`: the filled configuration and the error. -/
  envconfigProcess : String → Config → Config × Option String
  /-- The call `repocket.LoadLocalConfig()`. -/
  LoadLocalConfig : Call (String × Option String)
  /-- The call `pocket.Authorize(consumerKey)`. -/
  Authorize : String → Call (String × Option String)
  /-- The call `repocket.SaveLocalConfig(token)`. -/
  SaveLocalConfig : String → Call (Option String)
  /-- The call `pocket.QueryFavourites(token, consumerKey)`. -/
  QueryFavourites : String → String → Call (List Article)
  /-- The call `pocket.QueryNewest(token, consumerKey, count)`. -/
  QueryNewest : String → String → Nat → Call (List Article)

/-! ## Plumbing -/

/-- The world in which a result was produced. -/
def Result.world {α : Type} : Result α → World
  | .ok _ w => w
  | .fatal _ w => w
  | .panic _ w => w

/-- The exit status with which the process ended, `none` while it is still running. -/
def Result.exitStatus {α : Type} : Result α → Option Nat
  | .ok _ _ => none
  | .fatal _ _ => some 1
  | .panic _ _ => some 2

/-- Sequencing: the continuation runs only when the first part returned. -/
def Result.andThen {α β : Type} (r : Result α) (k : α → World → Result β) : Result β :=
  match r with
  | .ok a w => k a w
  | .fatal msg w => .fatal msg w
  | .panic msg w => .panic msg w

/-- Append one event to the trace. -/
def World.emit (w : World) (e : Event) : World :=
  { w with trace := w.trace ++ [e] }

/-- Replace the node at one path. -/
def FileSystem.set (fs : FileSystem) (path : String) (n : Node) : FileSystem :=
  fun q => if q = path then n else fs q

/-- The logging calls `log.Print`, `log.Printf`, `log.Println` with the formatted message. -/
def logPrint (msg : String) (w : World) : World :=
  w.emit (.log msg)

/-- The logging calls `log.Fatal`, `log.Fatalf`: the message is written and the process
exits with status 1. -/
def logFatal {α : Type} (msg : String) (w : World) : Result α :=
  .fatal msg (w.emit (.log msg))

/-- A call into one of the absent packages: the call is recorded, then it returns or ends
the process. -/
def callOut {α : Type} (e : Event) (c : Call α) (w : World) : Result α :=
  match c with
  | .returns a => .ok a (w.emit e)
  | .fatal msg => .fatal msg (w.emit e)
  | .panics msg => .panic msg (w.emit e)

/-- The number of renderer invocations in a trace. -/
def rendererCalls (t : List Event) : Nat :=
  t.countP fun e => match e with
    | .w3mDump _ => true
    | _ => false

/-- The number of queries (`QueryFavourites`, `QueryNewest`) in a trace. -/
def queryCalls (t : List Event) : Nat :=
  t.countP fun e => match e with
    | .QueryFavourites _ _ => true
    | .QueryNewest _ _ _ => true
    | _ => false

/-- The number of `pocket.Authorize` and `repocket.SaveLocalConfig` calls in a trace. -/
def authFlowCalls (t : List Event) : Nat :=
  t.countP fun e => match e with
    | .Authorize _ => true
    | .SaveLocalConfig _ => true
    | _ => false

/-! ## The operating system calls -/

/-- The error values `os.Stat` produces. -/
inductive OsError where
  | notExist
  | other (msg : String)
  deriving DecidableEq, Repr

/-- The `os.FileInfo` of an entry, reduced to what `ensureDir` asks of it. -/
structure FileInfo where
  IsDir : Bool
  deriving DecidableEq, Repr

/-- The call `os.Stat(path)`: the file information (`none` is the nil interface) and the
error. -/
def osStat (fs : FileSystem) (path : String) : Option FileInfo × Option OsError :=
  match fs path with
  | .absent => (none, some .notExist)
  | .file _ => (some ⟨false⟩, none)
  | .dir => (some ⟨true⟩, none)
  | .blocked e => (none, some (.other e))

/-- The test `os.IsNotExist(err)`; it is false of the nil error. -/
def osIsNotExist : Option OsError → Bool
  | some .notExist => true
  | _ => false

/-- The call `os.Create(path)`: creates the file, or truncates the one that is there. -/
def osCreate (env : Env) (path : String) (w : World) : Option String × World :=
  let w1 := w.emit (.create path)
  match w.fs path with
  | .dir => (some "is a directory", w1)
  | .blocked e => (some e, w1)
  | _ =>
    match env.createFails path with
    | some e => (some e, w1)
    | none => (none, { w1 with fs := w1.fs.set path (.file "") })

/-- The call `io.WriteString(file, data)` on the file just created at `path`. -/
def ioWriteString (env : Env) (path data : String) (w : World) : Option String × World :=
  let w1 := w.emit (.write path data)
  match env.writeFails path data with
  | some (n, e) => (some e, { w1 with fs := w1.fs.set path (.file (String.mk (data.data.take n))) })
  | none => (none, { w1 with fs := w1.fs.set path (.file data) })

/-! ## The regular expression of `dumpArticle` -/

/-- The character class of the pattern `[\.|/\\]+`: dot, vertical bar, slash, backslash. -/
def reClass (c : Char) : Bool :=
  c == '.' || c == '|' || c == '/' || c == '\\'

/-- A match of `[\.|/\\]+` anchored at the start of the input: the longest non-empty run of
class characters (the `+` is greedy), and what follows it. -/
def reMatch (s : List Char) : Option (List Char × List Char) :=
  let m := s.takeWhile reClass
  if m.isEmpty then none else some (m, s.drop m.length)

/-- The loop of `re.ReplaceAll`: at every position, a match is replaced by `repl` and the
search goes on after it; a character at which nothing matches is copied.  The first
argument bounds the number of iterations, as the position bound of the library loop. -/
def reReplaceAllLoop (repl : List Char) : Nat → List Char → List Char
  | 0, s => s
  | _ + 1, [] => []
  | n + 1, c :: cs =>
    match reMatch (c :: cs) with
    | some (_, rest) => repl ++ reReplaceAllLoop repl n rest
    | none => c :: reReplaceAllLoop repl n cs

/-- The call `re.ReplaceAll(src, repl)` for `re = regexp.MustCompile("[\\.|/\\\\]+")`. -/
def reReplaceAll (repl s : List Char) : List Char :=
  reReplaceAllLoop repl s.length s

/-- The title part of the file name:
`string(re.ReplaceAll([]byte(a.ResolvedTitle), []byte("-")))`. -/
def sanitizedTitle (title : String) : String :=
  String.mk (reReplaceAll "-".data title.data)

/-! ## The sanitiser as the specification words it -/

/-- Two neighbours belong to the same run when both are special characters. -/
def runRel (special : Char → Bool) (a b : Char) : Bool :=
  special a && special b

/-- A run of special characters becomes one hyphen, anything else is left untouched. -/
def collapseRun (special : Char → Bool) (run : List Char) : List Char :=
  if run.all special then ['-'] else run

/-- The title in which every maximal run of special characters is replaced by exactly one
hyphen and every other character is left untouched. -/
def collapseRuns (special : Char → Bool) (title : List Char) : List Char :=
  ((title.splitBy (runRel special)).map (collapseRun special)).flatten

/-- The special characters the specification names: dot, slash, backslash. -/
def specSpecial (c : Char) : Bool :=
  c == '.' || c == '/' || c == '\\'

/-- The `sanitizeFilename` of the specification. -/
def specSanitizeFilename (title : String) : String :=
  String.mk (collapseRuns specSpecial title.data)

/-! ## The functions of `cmd/repocket.go` -/

/-- The nil-dereference message of the Go run time. -/
def nilDeref : String :=
  "runtime error: invalid memory address or nil pointer dereference"

/-- The function `ensureDir`. -/
def ensureDir (path : String) (w : World) : Result Unit :=
  let (f, err) := osStat w.fs path
  let w1 := w.emit (.stat path)
  let afterCheck : Result Unit :=
    if osIsNotExist err then
      if err ≠ none then
        logFatal ("ERROR: expecting directory " ++ path ++ " to exist") w1
      else .ok () w1
    else .ok () w1
  afterCheck.andThen fun _ w2 =>
    match f with
    | none => .panic nilDeref w2
    | some fi =>
      if !fi.IsDir then
        logFatal ("ERROR: expecting path " ++ path ++ " to be a directory") w2
      else .ok () w2

/-- The function `getArticleContents`. -/
def getArticleContents (env : Env) (a : Article) (w : World) :
    (String × Option String) × World :=
  (env.w3mDump a.ResolvedUrl, w.emit (.w3mDump a.ResolvedUrl))

/-- The path `dumpArticle` computes for an article. -/
def targetPath (outputDir : String) (a : Article) : String :=
  outputDir ++ "/" ++ a.ItemId ++ "_" ++ sanitizedTitle a.ResolvedTitle

/-- The function `dumpArticle`. -/
def dumpArticle (env : Env) (outputDir : String) (a : Article) (w : World) : Result Unit :=
  let path := outputDir ++ "/" ++ a.ItemId ++ "_" ++ sanitizedTitle a.ResolvedTitle
  let (_, err) := osStat w.fs path
  let w1 := w.emit (.stat path)
  if !osIsNotExist err then
    .ok () (logPrint ("Skipping (already downloaded): " ++ a.ResolvedTitle) w1)
  else
    let w2 := logPrint ("Downloading: `" ++ a.ResolvedTitle ++ "` to `" ++ path ++ "`") w1
    match getArticleContents env a w2 with
    | ((_, some e), w3) =>
      .ok () (logPrint ("Failed to download %s, %s" ++ a.ResolvedUrl ++ e) w3)
    | ((out, none), w3) =>
      match osCreate env path w3 with
      | (some e, w4) =>
        .ok () (logPrint ("Failed to create file for " ++ a.ResolvedTitle ++ ": " ++ e) w4)
      | (none, w4) =>
        match ioWriteString env path out w4 with
        | (some e, w5) =>
          .ok () (logPrint ("Failed to write " ++ a.ResolvedTitle ++ ": " ++ e) w5)
        | (none, w5) => .ok () w5

/-- The function `makeConfig`. -/
def makeConfig (env : Env) (w : World) : Result Config :=
  let cfg : Config := ⟨"", "", ""⟩
  let w1 := w.emit (.envconfigProcess "REPOCKET")
  match env.envconfigProcess "REPOCKET" cfg with
  | (_, some e) => logFatal e w1
  | (cfg1, none) => .ok cfg1 w1

/-- The function `authenticate`; the configuration it updates through the pointer is
returned. -/
def authenticate (env : Env) (cfg : Config) (w : World) : Result Config :=
  (callOut .LoadLocalConfig env.LoadLocalConfig w).andThen fun r w1 =>
    let cfg1 := { cfg with AccessToken := r.1 }
    match r.2 with
    | none => .ok cfg1 w1
    | some e =>
      let w2 := logPrint
        ("Could not load local config, authorizing against GetPocket's API: " ++ e) w1
      (callOut (.Authorize cfg1.ConsumerKey) (env.Authorize cfg1.ConsumerKey) w2).andThen
        fun r2 w3 =>
          let cfg2 := { cfg1 with AccessToken := r2.1 }
          match r2.2 with
          | some e2 => logFatal ("Failed to authorize against Pocket: %s" ++ e2) w3
          | none =>
            (callOut (.SaveLocalConfig cfg2.AccessToken)
              (env.SaveLocalConfig cfg2.AccessToken) w3).andThen fun err3 w4 =>
                match err3 with
                | some e3 => .ok cfg2 (logPrint ("Failed to persist user token: " ++ e3) w4)
                | none => .ok cfg2 w4

/-- The loop `for _, item := range favs { dumpArticle(cfg.OutputDir, &item) }`. -/
def dumpEach (env : Env) (outputDir : String) : List Article → World → Result Unit
  | [], w => .ok () w
  | item :: rest, w =>
    (dumpArticle env outputDir item w).andThen fun _ w1 => dumpEach env outputDir rest w1

/-- The message of the empty output directory. -/
def noOutputDirMessage : String :=
  "No output directory provided (expected at the REPOCKET_OUTPUT_DIR env variable)"

/-- The function `dump`. -/
def dump (env : Env) (cfg : Config) (w : World) : Result Unit :=
  (callOut (.QueryFavourites cfg.AccessToken cfg.ConsumerKey)
    (env.QueryFavourites cfg.AccessToken cfg.ConsumerKey) w).andThen fun favs w1 =>
    let checked : Result Unit :=
      if cfg.OutputDir.length = 0 then logFatal noOutputDirMessage w1 else .ok () w1
    checked.andThen fun _ w2 =>
      (ensureDir cfg.OutputDir w2).andThen fun _ w3 =>
        dumpEach env cfg.OutputDir favs w3

/-- The verb `%-50.50s`: at most fifty characters, padded on the right to fifty. -/
def fmtS50 (s : String) : String :=
  let t := s.data.take 50
  String.mk (t ++ List.replicate (50 - t.length) ' ')

/-- The function `list`. -/
def list (env : Env) (cfg : Config) (w : World) : Result Unit :=
  (callOut (.QueryFavourites cfg.AccessToken cfg.ConsumerKey)
    (env.QueryFavourites cfg.AccessToken cfg.ConsumerKey) w).andThen fun favs w1 =>
    .ok () (favs.foldl
      (fun acc item =>
        logPrint ("| " ++ fmtS50 item.ResolvedTitle ++ " | " ++ item.ResolvedUrl) acc) w1)

/-- The loop of `next` over the articles `QueryNewest` returned. -/
def nextEach (env : Env) : List Article → World → Result Unit
  | [], w => .ok () w
  | a :: rest, w =>
    match getArticleContents env a w with
    | ((_, some e), w1) => logFatal ("Failed to get article contents: " ++ e) w1
    | ((out, none), w1) => nextEach env rest (logPrint out w1)

/-- The function `next`. -/
def next (env : Env) (cfg : Config) (w : World) : Result Unit :=
  (callOut (.QueryNewest cfg.AccessToken cfg.ConsumerKey 1)
    (env.QueryNewest cfg.AccessToken cfg.ConsumerKey 1) w).andThen fun favs w1 =>
    nextEach env favs w1

/-- The text `log.Fatal("Usage: %s [dump|list]\n", os.Args[0])` writes: `log.Fatal` does
not interpret the verb, it prints its operands one after the other. -/
def usageMessage (prog : String) : String :=
  "Usage: %s [dump|list]\n" ++ prog

/-- The function `usageAndExit`; `osArgs` is `os.Args`. -/
def usageAndExit (osArgs : List String) (w : World) : Result Unit :=
  match osArgs[0]? with
  | none => .panic "runtime error: index out of range [0] with length 0" w
  | some prog => logFatal (usageMessage prog) w

/-- The function `main`; `osArgs` is `os.Args`. -/
def main (env : Env) (osArgs : List String) (w : World) : Result Unit :=
  let checked : Result Unit :=
    if osArgs.length ≠ 2 then usageAndExit osArgs w else .ok () w
  checked.andThen fun _ w1 =>
    match osArgs[1]? with
    | none => .panic "runtime error: index out of range [1]" w1
    | some cmd =>
      (makeConfig env w1).andThen fun cfg w2 =>
        (authenticate env cfg w2).andThen fun cfg1 w3 =>
          if cmd = "dump" then dump env cfg1 w3
          else if cmd = "list" then list env cfg1 w3
          else if cmd = "next" then next env cfg1 w3
          else usageAndExit osArgs w3

/-! ## Concrete inputs -/

/-- The empty tree with an empty trace. -/
def emptyWorld : World :=
  ⟨fun _ => .absent, []⟩

/-- An environment in which everything succeeds: the renderer prints `text of <url>`, a
token is stored locally, and the provider reports the two favourites of the end-to-end
scenario. -/
def okEnv : Env where
  w3mDump := fun url => ("text of " ++ url, none)
  createFails := fun _ => none
  writeFails := fun _ _ => none
  envconfigProcess := fun _ cfg => ({ cfg with ConsumerKey := "key", OutputDir := "out" }, none)
  LoadLocalConfig := .returns ("token", none)
  Authorize := fun _ => .returns ("fresh", none)
  SaveLocalConfig := fun _ => .returns none
  QueryFavourites := fun _ _ => .returns
    [⟨"1", "Intro to Foo", "http://foo"⟩, ⟨"2", "Intro/to Bar", "http://bar"⟩]
  QueryNewest := fun _ _ _ => .returns []

/-- An environment as `okEnv` in which the renderer fails (`w3m` is not installed). -/
def noRendererEnv : Env :=
  { okEnv with w3mDump := fun _ => ("", some "exec: \"w3m\": executable file not found in $PATH") }

/-- A tree that holds only the directory `out`. -/
def outDirWorld : World :=
  ⟨fun p => if p = "out" then .dir else .absent, []⟩

/-- A tree in which `os.Stat` of every path fails with "permission denied". -/
def deniedWorld : World :=
  ⟨fun _ => .blocked "permission denied", []⟩

/-- The first favourite of the end-to-end scenario. -/
def fooArticle : Article :=
  ⟨"1", "Intro to Foo", "http://foo"⟩

/-- The second favourite of the end-to-end scenario. -/
def barArticle : Article :=
  ⟨"2", "Intro/to Bar", "http://bar"⟩

/-! ## Lemmas about the regular expression -/

theorem drop_length_takeWhile_eq (p : Char → Bool) (s : List Char) :
    s.drop (s.takeWhile p).length = s.dropWhile p := by
  induction s with
  | nil => rfl
  | cons c cs ih =>
    by_cases hc : p c <;> simp [List.takeWhile_cons, List.dropWhile_cons, hc, ih]

theorem reMatch_cons (c : Char) (cs : List Char) :
    reMatch (c :: cs) =
      if reClass c then some (c :: cs.takeWhile reClass, cs.dropWhile reClass) else none := by
  by_cases hc : reClass c
  · simp [reMatch, List.takeWhile_cons, hc, drop_length_takeWhile_eq]
  · simp [reMatch, List.takeWhile_cons, hc]

theorem length_dropWhile_le_self (p : Char → Bool) (s : List Char) :
    (s.dropWhile p).length ≤ s.length := by
  induction s with
  | nil => simp
  | cons c cs ih =>
    by_cases hc : p c <;> simp [List.dropWhile_cons, hc]
    omega

theorem reReplaceAllLoop_fuel (repl : List Char) :
    ∀ (n m : Nat) (s : List Char), s.length ≤ n → s.length ≤ m →
      reReplaceAllLoop repl n s = reReplaceAllLoop repl m s := by
  intro n
  induction n with
  | zero =>
    intro m s hn hm
    have hs : s = [] := List.length_eq_zero.mp (Nat.le_zero.mp hn)
    subst hs
    cases m <;> rfl
  | succ n ih =>
    intro m s hn hm
    cases s with
    | nil => cases m <;> rfl
    | cons c cs =>
      cases m with
      | zero => simp at hm
      | succ m =>
        simp only [List.length_cons, Nat.add_le_add_iff_right] at hn hm
        have hd := length_dropWhile_le_self reClass cs
        by_cases hc : reClass c
        · simp only [reReplaceAllLoop, reMatch_cons, hc, if_true]
          rw [ih m _ (by omega) (by omega)]
        · simp only [reReplaceAllLoop, reMatch_cons, hc]
          simp
          exact ih m cs hn hm

theorem reReplaceAll_nil (repl : List Char) : reReplaceAll repl [] = [] := rfl

theorem reReplaceAll_cons (repl : List Char) (c : Char) (cs : List Char) :
    reReplaceAll repl (c :: cs) =
      if reClass c then repl ++ reReplaceAll repl (cs.dropWhile reClass)
      else c :: reReplaceAll repl cs := by
  have hd := length_dropWhile_le_self reClass cs
  by_cases hc : reClass c
  · simp only [reReplaceAll, List.length_cons, reReplaceAllLoop, reMatch_cons, hc, if_true]
    rw [reReplaceAllLoop_fuel repl _ (cs.dropWhile reClass).length _ (by omega) (by omega)]
  · simp [reReplaceAll, reReplaceAllLoop, reMatch_cons, hc]




theorem splitBy_loop_acc (r : Char → Char → Bool) :
    ∀ (l : List Char) (a : Char) (g : List Char) (gs : List (List Char)),
      List.splitBy.loop r l a g gs = gs.reverse ++ List.splitBy.loop r l a g [] := by
  intro l
  induction l with
  | nil => intro a g gs; simp [List.splitBy.loop]
  | cons b l ih =>
    intro a g gs
    cases hr : r a b with
    | true => simp only [List.splitBy.loop, hr]; exact ih b (a :: g) gs
    | false =>
      simp only [List.splitBy.loop, hr]
      rw [ih b [] ((a :: g).reverse :: gs), ih b [] [(a :: g).reverse]]
      simp

theorem collapse_loop (l : List Char) :
    (∀ (a : Char) (g : List Char), reClass a = true → (∀ x ∈ g, reClass x = true) →
      ((List.splitBy.loop (runRel reClass) l a g []).map (collapseRun reClass)).flatten
        = '-' :: reReplaceAll ['-'] (l.dropWhile reClass)) ∧
    (∀ a : Char, reClass a = false →
      ((List.splitBy.loop (runRel reClass) l a [] []).map (collapseRun reClass)).flatten
        = a :: reReplaceAll ['-'] l) := by
  induction l with
  | nil =>
    constructor
    · intro a g ha hg
      have hall : (g.reverse ++ [a]).all reClass = true := by
        rw [List.all_eq_true]
        intro x hx
        rcases List.mem_append.mp hx with h | h
        · exact hg x (List.mem_reverse.mp h)
        · rw [List.mem_singleton.mp h]; exact ha
      simp only [List.splitBy.loop, List.reverse_cons, List.reverse_nil, List.nil_append,
        List.map_cons, List.map_nil, List.flatten_cons, List.flatten_nil, List.append_nil,
        collapseRun, hall, if_true, List.dropWhile_nil, reReplaceAll_nil]
    · intro a ha
      simp [List.splitBy.loop, collapseRun, reReplaceAll_nil, ha]
  | cons b l ih =>
    obtain ⟨ih1, ih2⟩ := ih
    constructor
    · intro a g ha hg
      by_cases hb : reClass b = true
      · have hr : runRel reClass a b = true := by simp [runRel, ha, hb]
        simp only [List.splitBy.loop, hr, List.dropWhile_cons, hb, if_true]
        apply ih1 b (a :: g) hb
        intro x hx
        rcases List.mem_cons.mp hx with h | h
        · rw [h]; exact ha
        · exact hg x h
      · have hb' : reClass b = false := by simpa using hb
        have hr : runRel reClass a b = false := by simp [runRel, hb']
        have hall : ((a :: g).reverse).all reClass = true := by
          rw [List.all_eq_true]
          intro x hx
          rcases List.mem_cons.mp (List.mem_reverse.mp hx) with h | h
          · rw [h]; exact ha
          · exact hg x h
        simp only [List.splitBy.loop, hr, List.dropWhile_cons, hb', Bool.false_eq_true, if_false]
        rw [splitBy_loop_acc]
        simp only [List.reverse_cons, List.reverse_nil, List.nil_append, List.map_append,
          List.map_cons, List.map_nil, List.flatten_append, List.flatten_cons, List.flatten_nil,
          List.append_nil]
        rw [ih2 b hb', reReplaceAll_cons]
        simp only [collapseRun]
        rw [List.reverse_cons] at hall
        simp [hall, hb']
    · intro a ha
      have hr : runRel reClass a b = false := by simp [runRel, ha]
      simp only [List.splitBy.loop, hr]
      rw [splitBy_loop_acc]
      simp only [List.reverse_cons, List.reverse_nil, List.nil_append, List.map_append,
          List.map_cons, List.map_nil, List.flatten_append, List.flatten_cons, List.flatten_nil,
          List.append_nil]
      rw [reReplaceAll_cons]
      by_cases hb : reClass b = true
      · rw [ih1 b [] hb (by simp)]
        simp [collapseRun, ha, hb]
      · have hb' : reClass b = false := by simpa using hb
        rw [ih2 b hb']
        simp [collapseRun, ha, hb']

theorem reReplaceAll_eq_collapseRuns (s : List Char) :
    reReplaceAll ['-'] s = collapseRuns reClass s := by
  cases s with
  | nil => rfl
  | cons c cs =>
    have h := collapse_loop cs
    unfold collapseRuns
    simp only [List.splitBy]
    rw [reReplaceAll_cons]
    by_cases hc : reClass c = true
    · rw [h.1 c [] hc (by simp)]; simp [hc]
    · have hc' : reClass c = false := by simpa using hc
      rw [h.2 c hc']; simp [hc']

theorem reClass_false_of_mem_reReplaceAll :
    ∀ (n : Nat) (s : List Char), s.length ≤ n →
      ∀ c ∈ reReplaceAll ['-'] s, reClass c = false := by
  intro n
  induction n with
  | zero =>
    intro s hs c hc
    have h0 : s = [] := List.length_eq_zero.mp (Nat.le_zero.mp hs)
    subst h0
    simp [reReplaceAll_nil] at hc
  | succ n ih =>
    intro s hs c hc
    cases s with
    | nil => simp [reReplaceAll_nil] at hc
    | cons b bs =>
      simp only [List.length_cons, Nat.add_le_add_iff_right] at hs
      rw [reReplaceAll_cons] at hc
      by_cases hb : reClass b = true
      · rw [if_pos hb, List.singleton_append] at hc
        rcases List.mem_cons.mp hc with h | h
        · rw [h]; decide
        · have hd := length_dropWhile_le_self reClass bs
          exact ih _ (by omega) c h
      · rw [if_neg hb] at hc
        rcases List.mem_cons.mp hc with h | h
        · rw [h]; simpa using hb
        · exact ih bs hs c h

/-! ## The claims about the sanitised title -/

/-- C1, as the claim states it, fails at the title `A|B`: the code turns the vertical bar
into a hyphen, while replacing only the runs of dot, slash and backslash leaves the title
as it is. -/
theorem sanitizedTitle_pipe_counterexample :
    sanitizedTitle "A|B" = "A-B" ∧ specSanitizeFilename "A|B" = "A|B" ∧
      sanitizedTitle "A|B" ≠ specSanitizeFilename "A|B" := by
  decide

/-- C1 (amended): for every title, the sanitised title computed in `dumpArticle` is the
title in which every maximal run of dot, vertical bar, slash or backslash characters is
replaced by exactly one hyphen and every other character is left untouched; in particular
`A/B..C` becomes `A-B-C`. -/
theorem sanitizedTitle_collapses_runs :
    (∀ title : String,
      sanitizedTitle title = String.mk (collapseRuns reClass title.data)) ∧
    (∀ c : Char, reClass c = true ↔ (c = '.' ∨ c = '|' ∨ c = '/' ∨ c = '\\')) ∧
    sanitizedTitle "A/B..C" = "A-B-C" := by
  refine ⟨?_, ?_, by decide⟩
  · intro title
    show String.mk (reReplaceAll ['-'] title.data) = _
    rw [reReplaceAll_eq_collapseRuns]
  · intro c
    simp [reClass, or_assoc]

/-- C10: for every title, the sanitised title computed in `dumpArticle` contains no dot, no
slash and no backslash, so the title part of the file name introduces neither a path
separator nor a `..` component. -/
theorem sanitizedTitle_no_dot_slash_backslash (title : String) :
    '.' ∉ (sanitizedTitle title).data ∧ '/' ∉ (sanitizedTitle title).data ∧
      '\\' ∉ (sanitizedTitle title).data := by
  have key : ∀ c ∈ (sanitizedTitle title).data, reClass c = false := by
    intro c hc
    exact reClass_false_of_mem_reReplaceAll title.data.length title.data (Nat.le_refl _) c hc
  refine ⟨?_, ?_, ?_⟩ <;> intro h <;> have := key _ h <;> revert this <;> decide


/-! ## Lemmas about `dumpArticle` -/

theorem targetPath_eq (outputDir : String) (a : Article) :
    targetPath outputDir a =
      outputDir ++ "/" ++ a.ItemId ++ "_" ++ sanitizedTitle a.ResolvedTitle := rfl

theorem fs_set_same (fs : FileSystem) (path : String) (n : Node) :
    fs.set path n path = n := by
  simp [FileSystem.set]

theorem fs_set_other (fs : FileSystem) (path : String) (n : Node) (q : String)
    (h : q ≠ path) : fs.set path n q = fs q := by
  simp [FileSystem.set, h]

theorem dumpArticle_present (env : Env) (d : String) (a : Article) (w : World)
    (h : w.fs (targetPath d a) ≠ .absent) :
    dumpArticle env d a w =
      .ok () ⟨w.fs, w.trace ++ [.stat (targetPath d a),
        .log ("Skipping (already downloaded): " ++ a.ResolvedTitle)]⟩ := by
  rw [targetPath_eq] at h
  cases hfs : w.fs (d ++ "/" ++ a.ItemId ++ "_" ++ sanitizedTitle a.ResolvedTitle) with
  | absent => exact absurd hfs h
  | file c => simp [dumpArticle, targetPath, osStat, hfs, osIsNotExist, logPrint, World.emit]
  | dir => simp [dumpArticle, targetPath, osStat, hfs, osIsNotExist, logPrint, World.emit]
  | blocked e => simp [dumpArticle, targetPath, osStat, hfs, osIsNotExist, logPrint, World.emit]

theorem dumpArticle_render_failed (env : Env) (d : String) (a : Article) (w : World)
    (out e : String) (h : w.fs (targetPath d a) = .absent)
    (hr : env.w3mDump a.ResolvedUrl = (out, some e)) :
    dumpArticle env d a w =
      .ok () ⟨w.fs, w.trace ++ [.stat (targetPath d a),
        .log ("Downloading: `" ++ a.ResolvedTitle ++ "` to `" ++ targetPath d a ++ "`"),
        .w3mDump a.ResolvedUrl,
        .log ("Failed to download %s, %s" ++ a.ResolvedUrl ++ e)]⟩ := by
  rw [targetPath_eq] at h
  simp [dumpArticle, targetPath, osStat, h, osIsNotExist, logPrint, World.emit,
    getArticleContents, hr]

theorem dumpArticle_written (env : Env) (d : String) (a : Article) (w : World)
    (out : String) (h : w.fs (targetPath d a) = .absent)
    (hr : env.w3mDump a.ResolvedUrl = (out, none))
    (hc : env.createFails (targetPath d a) = none)
    (hw : env.writeFails (targetPath d a) out = none) :
    dumpArticle env d a w =
      .ok () ⟨(w.fs.set (targetPath d a) (.file "")).set (targetPath d a) (.file out),
        w.trace ++ [.stat (targetPath d a),
          .log ("Downloading: `" ++ a.ResolvedTitle ++ "` to `" ++ targetPath d a ++ "`"),
          .w3mDump a.ResolvedUrl, .create (targetPath d a), .write (targetPath d a) out]⟩ := by
  rw [targetPath_eq] at h hc hw
  simp [dumpArticle, targetPath, osStat, h, osIsNotExist, logPrint, World.emit,
    getArticleContents, hr, osCreate, hc, ioWriteString, hw]

theorem dumpArticle_create_failed (env : Env) (d : String) (a : Article) (w : World)
    (out e : String) (h : w.fs (targetPath d a) = .absent)
    (hr : env.w3mDump a.ResolvedUrl = (out, none))
    (hc : env.createFails (targetPath d a) = some e) :
    dumpArticle env d a w =
      .ok () ⟨w.fs, w.trace ++ [.stat (targetPath d a),
        .log ("Downloading: `" ++ a.ResolvedTitle ++ "` to `" ++ targetPath d a ++ "`"),
        .w3mDump a.ResolvedUrl, .create (targetPath d a),
        .log ("Failed to create file for " ++ a.ResolvedTitle ++ ": " ++ e)]⟩ := by
  rw [targetPath_eq] at h hc
  simp [dumpArticle, targetPath, osStat, h, osIsNotExist, logPrint, World.emit,
    getArticleContents, hr, osCreate, hc]

theorem dumpArticle_write_failed (env : Env) (d : String) (a : Article) (w : World)
    (out e : String) (n : Nat) (h : w.fs (targetPath d a) = .absent)
    (hr : env.w3mDump a.ResolvedUrl = (out, none))
    (hc : env.createFails (targetPath d a) = none)
    (hw : env.writeFails (targetPath d a) out = some (n, e)) :
    dumpArticle env d a w =
      .ok () ⟨(w.fs.set (targetPath d a) (.file "")).set (targetPath d a)
          (.file (String.mk (out.data.take n))),
        w.trace ++ [.stat (targetPath d a),
          .log ("Downloading: `" ++ a.ResolvedTitle ++ "` to `" ++ targetPath d a ++ "`"),
          .w3mDump a.ResolvedUrl, .create (targetPath d a), .write (targetPath d a) out,
          .log ("Failed to write " ++ a.ResolvedTitle ++ ": " ++ e)]⟩ := by
  rw [targetPath_eq] at h hc hw
  simp [dumpArticle, targetPath, osStat, h, osIsNotExist, logPrint, World.emit,
    getArticleContents, hr, osCreate, hc, ioWriteString, hw]

theorem dumpArticle_returns (env : Env) (d : String) (a : Article) (w : World) :
    ∃ w1, dumpArticle env d a w = .ok () w1 := by
  by_cases h : w.fs (targetPath d a) = .absent
  · rcases hr : env.w3mDump a.ResolvedUrl with ⟨out, _ | e⟩
    · cases hc : env.createFails (targetPath d a) with
      | some e => exact ⟨_, dumpArticle_create_failed env d a w out e h hr hc⟩
      | none =>
        cases hw : env.writeFails (targetPath d a) out with
        | none => exact ⟨_, dumpArticle_written env d a w out h hr hc hw⟩
        | some r => exact ⟨_, dumpArticle_write_failed env d a w out r.2 r.1 h hr hc hw⟩
    · exact ⟨_, dumpArticle_render_failed env d a w out e h hr⟩
  · exact ⟨_, dumpArticle_present env d a w h⟩

theorem dumpArticle_keeps_other_paths (env : Env) (d : String) (a : Article) (w : World)
    (p : String) (hp : p ≠ targetPath d a) :
    (dumpArticle env d a w).world.fs p = w.fs p := by
  by_cases h : w.fs (targetPath d a) = .absent
  · rcases hr : env.w3mDump a.ResolvedUrl with ⟨out, _ | e⟩
    · cases hc : env.createFails (targetPath d a) with
      | some e => rw [dumpArticle_create_failed env d a w out e h hr hc]; rfl
      | none =>
        cases hw : env.writeFails (targetPath d a) out with
        | none =>
          rw [dumpArticle_written env d a w out h hr hc hw]
          simp [Result.world, FileSystem.set, hp]
        | some r =>
          rw [dumpArticle_write_failed env d a w out r.2 r.1 h hr hc hw]
          simp [Result.world, FileSystem.set, hp]
    · rw [dumpArticle_render_failed env d a w out e h hr]; rfl
  · rw [dumpArticle_present env d a w h]; rfl

theorem dumpArticle_keeps_existing (env : Env) (d : String) (a : Article) (w : World)
    (p : String) (hp : w.fs p ≠ .absent) :
    (dumpArticle env d a w).world.fs p = w.fs p := by
  by_cases hpt : p = targetPath d a
  · subst hpt
    rw [dumpArticle_present env d a w hp]
    rfl
  · exact dumpArticle_keeps_other_paths env d a w p hpt

theorem dumpArticle_leaves_entry (env : Env) (d : String) (a : Article) (w : World)
    (h : w.fs (targetPath d a) ≠ .absent ∨
      ((env.w3mDump a.ResolvedUrl).2 = none ∧ env.createFails (targetPath d a) = none)) :
    (dumpArticle env d a w).world.fs (targetPath d a) ≠ .absent := by
  by_cases hp : w.fs (targetPath d a) = .absent
  · rcases h with h | ⟨hr, hc⟩
    · exact absurd hp h
    · rcases hr2 : env.w3mDump a.ResolvedUrl with ⟨out, err⟩
      rw [hr2] at hr
      simp only at hr
      subst hr
      cases hw : env.writeFails (targetPath d a) out with
      | none =>
        rw [dumpArticle_written env d a w out hp hr2 hc hw]
        simp [Result.world, FileSystem.set]
      | some r =>
        rw [dumpArticle_write_failed env d a w out r.2 r.1 hp hr2 hc hw]
        simp [Result.world, FileSystem.set]
  · rw [dumpArticle_keeps_existing env d a w _ hp]
    exact hp

/-! ## The claims about `dumpArticle` -/

/-- C3: when an entry already exists at the target path of the article, `dumpArticle` only
logs that it skips the article: it returns, the renderer is not invoked and the file tree
is unchanged. -/
theorem dumpArticle_existing_entry_noop (env : Env) (d : String) (a : Article) (w : World)
    (h : w.fs (targetPath d a) ≠ .absent) :
    dumpArticle env d a w =
        .ok () ⟨w.fs, w.trace ++ [.stat (targetPath d a),
          .log ("Skipping (already downloaded): " ++ a.ResolvedTitle)]⟩ ∧
      (dumpArticle env d a w).world.fs = w.fs ∧
      rendererCalls (dumpArticle env d a w).world.trace = rendererCalls w.trace := by
  rw [dumpArticle_present env d a w h]
  refine ⟨rfl, rfl, ?_⟩
  simp [Result.world, rendererCalls, List.countP_append, List.countP_cons]

/-- C3 at a concrete input: the file of the first favourite is already in `out`. -/
theorem dumpArticle_existing_entry_noop_witness :
    (outDirWorld.fs.set "out/1_Intro to Foo" (.file "old")) (targetPath "out" fooArticle)
        ≠ .absent ∧
      (dumpArticle okEnv "out" fooArticle
          ⟨outDirWorld.fs.set "out/1_Intro to Foo" (.file "old"), []⟩).world.fs
        = outDirWorld.fs.set "out/1_Intro to Foo" (.file "old") :=
  ⟨by decide,
    (dumpArticle_existing_entry_noop okEnv "out" fooArticle
      ⟨outDirWorld.fs.set "out/1_Intro to Foo" (.file "old"), []⟩ (by decide)).2.1⟩

/-- C4, as the claim states it, fails when the renderer failed in the first run: nothing
was written, so the second run finds no entry at the target path and invokes the renderer
again. -/
theorem dumpArticle_twice_counterexample :
    rendererCalls (dumpArticle noRendererEnv "out" fooArticle outDirWorld).world.trace = 1 ∧
      rendererCalls (dumpArticle noRendererEnv "out" fooArticle
        (dumpArticle noRendererEnv "out" fooArticle outDirWorld).world).world.trace = 2 := by
  decide

/-- C4 (amended): `dumpArticle` is run twice in succession on the same article, the
environment of each run being arbitrary.  When the first run leaves an entry at the target
path (the entry was there before, or the renderer and the file creation of the first run
succeeded), the second run does not invoke the renderer and leaves the file tree
unchanged; and in every case the second run leaves every entry that exists after the first
run as it is, so it never overwrites a file. -/
theorem dumpArticle_twice (env1 env2 : Env) (d : String) (a : Article) (w : World) :
    ((w.fs (targetPath d a) ≠ .absent ∨
        ((env1.w3mDump a.ResolvedUrl).2 = none ∧ env1.createFails (targetPath d a) = none)) →
      rendererCalls (dumpArticle env2 d a (dumpArticle env1 d a w).world).world.trace
          = rendererCalls (dumpArticle env1 d a w).world.trace ∧
        (dumpArticle env2 d a (dumpArticle env1 d a w).world).world.fs
          = (dumpArticle env1 d a w).world.fs) ∧
    (∀ p, (dumpArticle env1 d a w).world.fs p ≠ .absent →
      (dumpArticle env2 d a (dumpArticle env1 d a w).world).world.fs p
        = (dumpArticle env1 d a w).world.fs p) := by
  constructor
  · intro h
    have h1 := dumpArticle_leaves_entry env1 d a w h
    rw [dumpArticle_present env2 d a _ h1]
    refine ⟨?_, rfl⟩
    simp [Result.world, rendererCalls, List.countP_append, List.countP_cons]
  · intro p hp
    exact dumpArticle_keeps_existing env2 d a _ p hp

/-- C4 (amended) at a concrete input: the first run writes the file of the first favourite
into `out`, the second run, whose renderer would fail, does not call the renderer. -/
theorem dumpArticle_twice_witness :
    ((okEnv.w3mDump fooArticle.ResolvedUrl).2 = none ∧
        okEnv.createFails (targetPath "out" fooArticle) = none) ∧
      rendererCalls (dumpArticle noRendererEnv "out" fooArticle
          (dumpArticle okEnv "out" fooArticle outDirWorld).world).world.trace
        = rendererCalls (dumpArticle okEnv "out" fooArticle outDirWorld).world.trace :=
  ⟨by decide,
    ((dumpArticle_twice okEnv noRendererEnv "out" fooArticle outDirWorld).1
      (Or.inr (by decide))).1⟩

/-- C6: when no entry exists at the target path and the renderer fails, `dumpArticle`
returns normally, the file tree is unchanged (no file is created or written), and the loop
of `dump` goes on with the remaining favourites. -/
theorem dumpArticle_renderer_failure (env : Env) (d : String) (a : Article) (w : World)
    (out e : String) (h : w.fs (targetPath d a) = .absent)
    (hr : env.w3mDump a.ResolvedUrl = (out, some e)) :
    ∃ w1, dumpArticle env d a w = .ok () w1 ∧ w1.fs = w.fs ∧
      w1.trace = w.trace ++ [.stat (targetPath d a),
        .log ("Downloading: `" ++ a.ResolvedTitle ++ "` to `" ++ targetPath d a ++ "`"),
        .w3mDump a.ResolvedUrl,
        .log ("Failed to download %s, %s" ++ a.ResolvedUrl ++ e)] ∧
      ∀ rest, dumpEach env d (a :: rest) w = dumpEach env d rest w1 := by
  refine ⟨_, dumpArticle_render_failed env d a w out e h hr, rfl, rfl, ?_⟩
  intro rest
  simp [dumpEach, dumpArticle_render_failed env d a w out e h hr, Result.andThen]

/-- C6 at a concrete input: the renderer is not installed; the second favourite is still
processed after the first one failed. -/
theorem dumpArticle_renderer_failure_witness :
    outDirWorld.fs (targetPath "out" fooArticle) = .absent ∧
      noRendererEnv.w3mDump fooArticle.ResolvedUrl
        = ("", some "exec: \"w3m\": executable file not found in $PATH") ∧
      ∃ w1, dumpArticle noRendererEnv "out" fooArticle outDirWorld = .ok () w1 ∧
        w1.fs = outDirWorld.fs ∧
        w1.trace = outDirWorld.trace ++ [.stat (targetPath "out" fooArticle),
          .log ("Downloading: `" ++ fooArticle.ResolvedTitle ++ "` to `"
            ++ targetPath "out" fooArticle ++ "`"),
          .w3mDump fooArticle.ResolvedUrl,
          .log ("Failed to download %s, %s" ++ fooArticle.ResolvedUrl
            ++ "exec: \"w3m\": executable file not found in $PATH")] ∧
        ∀ rest, dumpEach noRendererEnv "out" (fooArticle :: rest) outDirWorld
          = dumpEach noRendererEnv "out" rest w1 :=
  ⟨by decide, by decide,
    dumpArticle_renderer_failure noRendererEnv "out" fooArticle outDirWorld ""
      "exec: \"w3m\": executable file not found in $PATH" (by decide) (by decide)⟩

/-! ## Lemmas about `ensureDir` and `dump` -/

theorem ensureDir_absent (path : String) (w : World) (h : w.fs path = .absent) :
    ensureDir path w =
      .fatal ("ERROR: expecting directory " ++ path ++ " to exist")
        ⟨w.fs, w.trace ++ [.stat path,
          .log ("ERROR: expecting directory " ++ path ++ " to exist")]⟩ := by
  simp [ensureDir, osStat, h, osIsNotExist, logFatal, World.emit, Result.andThen]

theorem ensureDir_dir (path : String) (w : World) (h : w.fs path = .dir) :
    ensureDir path w = .ok () ⟨w.fs, w.trace ++ [.stat path]⟩ := by
  simp [ensureDir, osStat, h, osIsNotExist, World.emit, Result.andThen]

theorem ensureDir_file (path c : String) (w : World) (h : w.fs path = .file c) :
    ensureDir path w =
      .fatal ("ERROR: expecting path " ++ path ++ " to be a directory")
        ⟨w.fs, w.trace ++ [.stat path,
          .log ("ERROR: expecting path " ++ path ++ " to be a directory")]⟩ := by
  simp [ensureDir, osStat, h, osIsNotExist, logFatal, World.emit, Result.andThen]

theorem ensureDir_blocked (path e : String) (w : World) (h : w.fs path = .blocked e) :
    ensureDir path w = .panic nilDeref ⟨w.fs, w.trace ++ [.stat path]⟩ := by
  simp [ensureDir, osStat, h, osIsNotExist, World.emit, Result.andThen]

theorem string_length_ne_zero (s : String) (h : s ≠ "") : s.length ≠ 0 := by
  intro h0
  apply h
  cases s with
  | mk data =>
    have hd : data = [] := List.length_eq_zero.mp h0
    subst hd
    rfl

theorem string_append_left_cancel (d s t : String) (h : d ++ s = d ++ t) : s = t := by
  have hd := congrArg String.data h
  rw [String.data_append, String.data_append] at hd
  exact String.ext (List.append_cancel_left hd)

theorem dump_in_directory (env : Env) (cfg : Config) (w : World) (favs : List Article)
    (hq : env.QueryFavourites cfg.AccessToken cfg.ConsumerKey = .returns favs)
    (hne : cfg.OutputDir ≠ "") (hd : w.fs cfg.OutputDir = .dir) :
    dump env cfg w =
      dumpEach env cfg.OutputDir favs
        ⟨w.fs, w.trace ++ [.QueryFavourites cfg.AccessToken cfg.ConsumerKey,
          .stat cfg.OutputDir]⟩ := by
  have hl := string_length_ne_zero _ hne
  have he := ensureDir_dir cfg.OutputDir
    ⟨w.fs, w.trace ++ [.QueryFavourites cfg.AccessToken cfg.ConsumerKey]⟩ hd
  simp only [List.append_assoc, List.singleton_append] at he
  simp [dump, hq, callOut, Result.andThen, hl, World.emit, he]

theorem fooPath_eq (d u : String) :
    targetPath d ⟨"1", "Intro to Foo", u⟩ = d ++ "/1_Intro to Foo" := by
  have hs : sanitizedTitle "Intro to Foo" = "Intro to Foo" := by decide
  simp only [targetPath, hs, String.append_assoc]
  rfl

theorem barPath_eq (d u : String) :
    targetPath d ⟨"2", "Intro/to Bar", u⟩ = d ++ "/2_Intro-to Bar" := by
  have hs : sanitizedTitle "Intro/to Bar" = "Intro-to Bar" := by decide
  simp only [targetPath, hs, String.append_assoc]
  rfl

theorem fooPath_ne_barPath (d : String) : d ++ "/2_Intro-to Bar" ≠ d ++ "/1_Intro to Foo" := by
  intro h
  have := string_append_left_cancel d _ _ h
  revert this
  decide

theorem dump_two_favourites (env : Env) (cfg : Config) (w : World) (u1 u2 o1 o2 : String)
    (hq : env.QueryFavourites cfg.AccessToken cfg.ConsumerKey =
      .returns [⟨"1", "Intro to Foo", u1⟩, ⟨"2", "Intro/to Bar", u2⟩])
    (hne : cfg.OutputDir ≠ "") (hd : w.fs cfg.OutputDir = .dir)
    (h1 : w.fs (cfg.OutputDir ++ "/1_Intro to Foo") = .absent)
    (h2 : w.fs (cfg.OutputDir ++ "/2_Intro-to Bar") = .absent)
    (hr1 : env.w3mDump u1 = (o1, none)) (hr2 : env.w3mDump u2 = (o2, none))
    (hc1 : env.createFails (cfg.OutputDir ++ "/1_Intro to Foo") = none)
    (hc2 : env.createFails (cfg.OutputDir ++ "/2_Intro-to Bar") = none)
    (hw1 : env.writeFails (cfg.OutputDir ++ "/1_Intro to Foo") o1 = none)
    (hw2 : env.writeFails (cfg.OutputDir ++ "/2_Intro-to Bar") o2 = none) :
    ∃ w1, dump env cfg w = .ok () w1 ∧
      w1.fs (cfg.OutputDir ++ "/1_Intro to Foo") = .file o1 ∧
      w1.fs (cfg.OutputDir ++ "/2_Intro-to Bar") = .file o2 ∧
      (∀ p, p ≠ cfg.OutputDir ++ "/1_Intro to Foo" → p ≠ cfg.OutputDir ++ "/2_Intro-to Bar" →
        w1.fs p = w.fs p) ∧
      rendererCalls w1.trace = rendererCalls w.trace + 2 := by
  have hne12 := fooPath_ne_barPath cfg.OutputDir
  rw [dump_in_directory env cfg w _ hq hne hd]
  simp only [dumpEach]
  rw [dumpArticle_written env cfg.OutputDir ⟨"1", "Intro to Foo", u1⟩ _ o1
    (by rw [fooPath_eq]; exact h1) hr1 (by rw [fooPath_eq]; exact hc1)
    (by rw [fooPath_eq]; exact hw1)]
  simp only [Result.andThen]
  rw [dumpArticle_written env cfg.OutputDir ⟨"2", "Intro/to Bar", u2⟩ _ o2
    (by rw [fooPath_eq, barPath_eq]; simp [FileSystem.set, hne12, h2]) hr2
    (by rw [barPath_eq]; exact hc2) (by rw [barPath_eq]; exact hw2)]
  simp only [Result.andThen, fooPath_eq, barPath_eq]
  refine ⟨_, rfl, ?_, ?_, ?_, ?_⟩
  · simp [FileSystem.set, hne12.symm]
  · simp [FileSystem.set]
  · intro p hp1 hp2
    simp [FileSystem.set, hp1, hp2]
  · simp [rendererCalls, List.countP_append, List.countP_cons]

/-! ## The claims about `dump` and `ensureDir` -/

/-- C5: when no entry exists at the target path and the renderer, the file creation and
the write succeed, `dumpArticle` creates exactly one file, at the path
`d + "/" + i + "_" + sanitised(t)`, with the output of the renderer for the URL as its
contents; and `dump` of the favourites (`1`, `Intro to Foo`) and (`2`, `Intro/to Bar`)
into a directory that holds neither file creates `1_Intro to Foo` and `2_Intro-to Bar`
there, each with the output of the renderer for its URL, and changes nothing else. -/
theorem dumpArticle_creates_target :
    (∀ (env : Env) (d : String) (a : Article) (w : World) (out : String),
      w.fs (targetPath d a) = .absent →
      env.w3mDump a.ResolvedUrl = (out, none) →
      env.createFails (targetPath d a) = none →
      env.writeFails (targetPath d a) out = none →
      targetPath d a = d ++ "/" ++ a.ItemId ++ "_" ++ sanitizedTitle a.ResolvedTitle ∧
      ∃ w1, dumpArticle env d a w = .ok () w1 ∧
        w1.fs (targetPath d a) = .file out ∧
        (∀ p, p ≠ targetPath d a → w1.fs p = w.fs p) ∧
        rendererCalls w1.trace = rendererCalls w.trace + 1) ∧
    (∀ (env : Env) (cfg : Config) (w : World) (u1 u2 o1 o2 : String),
      env.QueryFavourites cfg.AccessToken cfg.ConsumerKey =
        .returns [⟨"1", "Intro to Foo", u1⟩, ⟨"2", "Intro/to Bar", u2⟩] →
      cfg.OutputDir ≠ "" → w.fs cfg.OutputDir = .dir →
      w.fs (cfg.OutputDir ++ "/1_Intro to Foo") = .absent →
      w.fs (cfg.OutputDir ++ "/2_Intro-to Bar") = .absent →
      env.w3mDump u1 = (o1, none) → env.w3mDump u2 = (o2, none) →
      env.createFails (cfg.OutputDir ++ "/1_Intro to Foo") = none →
      env.createFails (cfg.OutputDir ++ "/2_Intro-to Bar") = none →
      env.writeFails (cfg.OutputDir ++ "/1_Intro to Foo") o1 = none →
      env.writeFails (cfg.OutputDir ++ "/2_Intro-to Bar") o2 = none →
      ∃ w1, dump env cfg w = .ok () w1 ∧
        w1.fs (cfg.OutputDir ++ "/1_Intro to Foo") = .file o1 ∧
        w1.fs (cfg.OutputDir ++ "/2_Intro-to Bar") = .file o2 ∧
        (∀ p, p ≠ cfg.OutputDir ++ "/1_Intro to Foo" →
          p ≠ cfg.OutputDir ++ "/2_Intro-to Bar" → w1.fs p = w.fs p) ∧
        rendererCalls w1.trace = rendererCalls w.trace + 2) := by
  constructor
  · intro env d a w out h hr hc hw
    refine ⟨rfl, _, dumpArticle_written env d a w out h hr hc hw, ?_, ?_, ?_⟩
    · simp [FileSystem.set]
    · intro p hp
      simp [FileSystem.set, hp]
    · simp [rendererCalls, List.countP_append, List.countP_cons]
  · intro env cfg w u1 u2 o1 o2 hq hne hd h1 h2 hr1 hr2 hc1 hc2 hw1 hw2
    exact dump_two_favourites env cfg w u1 u2 o1 o2 hq hne hd h1 h2 hr1 hr2 hc1 hc2 hw1 hw2

/-- C5 at a concrete input: the two favourites of the scenario are dumped into the empty
directory `out`. -/
theorem dumpArticle_creates_target_witness :
    ∃ w1, dump okEnv ⟨"key", "token", "out"⟩ outDirWorld = .ok () w1 ∧
      w1.fs ("out" ++ "/1_Intro to Foo") = .file "text of http://foo" ∧
      w1.fs ("out" ++ "/2_Intro-to Bar") = .file "text of http://bar" ∧
      (∀ p, p ≠ "out" ++ "/1_Intro to Foo" → p ≠ "out" ++ "/2_Intro-to Bar" →
        w1.fs p = outDirWorld.fs p) ∧
      rendererCalls w1.trace = rendererCalls outDirWorld.trace + 2 :=
  dumpArticle_creates_target.2 okEnv ⟨"key", "token", "out"⟩ outDirWorld
    "http://foo" "http://bar" "text of http://foo" "text of http://bar"
    rfl (by decide) (by decide) (by decide) (by decide) (by decide) (by decide)
    (by decide) (by decide) (by decide) (by decide)

/-- C2, as the claim states it, fails: with an output directory that does not exist,
`dump` has already called `pocket.QueryFavourites` when it ends the process. -/
theorem dump_missing_dir_counterexample :
    emptyWorld.fs "/no/such/dir" = .absent ∧
      (dump okEnv ⟨"key", "token", "/no/such/dir"⟩ emptyWorld).exitStatus = some 1 ∧
      Event.QueryFavourites "token" "key"
        ∈ (dump okEnv ⟨"key", "token", "/no/such/dir"⟩ emptyWorld).world.trace ∧
      queryCalls (dump okEnv ⟨"key", "token", "/no/such/dir"⟩ emptyWorld).world.trace = 1 := by
  decide

/-- C2 (amended): for every configuration whose output directory path does not exist,
`dump` first calls `pocket.QueryFavourites`, once, and does not return: when the query
returns, `dump` ends the process with a fatal error before any article is archived (the
renderer is not invoked and the file tree is unchanged). -/
theorem dump_missing_dir (env : Env) (cfg : Config) (w : World)
    (h : w.fs cfg.OutputDir = .absent) :
    (dump env cfg w).exitStatus ≠ none ∧
      (dump env cfg w).world.fs = w.fs ∧
      rendererCalls (dump env cfg w).world.trace = rendererCalls w.trace ∧
      queryCalls (dump env cfg w).world.trace = queryCalls w.trace + 1 ∧
      (∃ t, (dump env cfg w).world.trace =
        w.trace ++ .QueryFavourites cfg.AccessToken cfg.ConsumerKey :: t) ∧
      (∀ favs, env.QueryFavourites cfg.AccessToken cfg.ConsumerKey = .returns favs →
        ∃ msg w1, dump env cfg w = .fatal msg w1 ∧
          (msg = noOutputDirMessage ∨
            msg = "ERROR: expecting directory " ++ cfg.OutputDir ++ " to exist")) := by
  cases hq : env.QueryFavourites cfg.AccessToken cfg.ConsumerKey with
  | returns favs =>
    by_cases hl : cfg.OutputDir.length = 0
    · simp [dump, hq, callOut, Result.andThen, hl, logFatal, World.emit, Result.exitStatus,
        Result.world, rendererCalls, queryCalls, List.countP_append, List.countP_cons]
    · have he := ensureDir_absent cfg.OutputDir
        ⟨w.fs, w.trace ++ [.QueryFavourites cfg.AccessToken cfg.ConsumerKey]⟩ h
      simp only [List.append_assoc, List.singleton_append] at he
      simp [dump, hq, callOut, Result.andThen, hl, World.emit, he, Result.exitStatus,
        Result.world, rendererCalls, queryCalls, List.countP_append, List.countP_cons]
  | fatal m =>
    simp [dump, hq, callOut, Result.andThen, World.emit, Result.exitStatus,
      Result.world, rendererCalls, queryCalls, List.countP_append, List.countP_cons]
  | panics m =>
    simp [dump, hq, callOut, Result.andThen, World.emit, Result.exitStatus,
      Result.world, rendererCalls, queryCalls, List.countP_append, List.countP_cons]

/-- C2 (amended) at a concrete input: the output directory `/no/such/dir` of an empty
tree. -/
theorem dump_missing_dir_witness :
    emptyWorld.fs "/no/such/dir" = .absent ∧
      (dump noRendererEnv ⟨"key", "token", "/no/such/dir"⟩ emptyWorld).exitStatus ≠ none :=
  ⟨by decide,
    (dump_missing_dir noRendererEnv ⟨"key", "token", "/no/such/dir"⟩ emptyWorld
      (by decide)).1⟩

/-- C7, the failing input: when `os.Stat` fails with an error other than "does not exist"
(here: permission denied), `ensureDir` calls `IsDir` on the nil file information and the
process ends by a nil dereference (exit status 2), without a fatal-error log call. -/
theorem ensureDir_stat_error_panics :
    deniedWorld.fs "/srv/archive" = .blocked "permission denied" ∧
      (ensureDir "/srv/archive" deniedWorld).exitStatus = some 2 ∧
      (ensureDir "/srv/archive" deniedWorld).world.trace = [.stat "/srv/archive"] ∧
      ensureDir "/srv/archive" deniedWorld
        = .panic nilDeref ⟨deniedWorld.fs, [.stat "/srv/archive"]⟩ := by
  refine ⟨by decide, by decide, by decide, ?_⟩
  exact ensureDir_blocked "/srv/archive" "permission denied" deniedWorld rfl

/-- The other cases of `ensureDir`: it returns exactly when the path is a directory, and
ends the process through the fatal-error log call when the path is absent or a file. -/
theorem ensureDir_cases (path : String) (w : World) :
    (w.fs path = .dir → ensureDir path w = .ok () ⟨w.fs, w.trace ++ [.stat path]⟩) ∧
    (w.fs path = .absent → (ensureDir path w).exitStatus = some 1) ∧
    (∀ c, w.fs path = .file c → (ensureDir path w).exitStatus = some 1) ∧
    (∀ e, w.fs path = .blocked e → (ensureDir path w).exitStatus = some 2) ∧
    ((ensureDir path w).exitStatus = none → w.fs path = .dir) := by
  refine ⟨ensureDir_dir path w, ?_, ?_, ?_, ?_⟩
  · intro h; rw [ensureDir_absent path w h]; rfl
  · intro c h; rw [ensureDir_file path c w h]; rfl
  · intro e h; rw [ensureDir_blocked path e w h]; rfl
  · intro h
    cases hfs : w.fs path with
    | absent => rw [ensureDir_absent path w hfs] at h; cases h
    | file c => rw [ensureDir_file path c w hfs] at h; cases h
    | dir => rfl
    | blocked e => rw [ensureDir_blocked path e w hfs] at h; cases h

/-! ## Lemmas about `makeConfig`, `authenticate` and `main` -/

theorem makeConfig_trace (env : Env) (w : World) :
    (makeConfig env w).world.fs = w.fs ∧
      queryCalls (makeConfig env w).world.trace = queryCalls w.trace ∧
      ∃ t, (makeConfig env w).world.trace = w.trace ++ .envconfigProcess "REPOCKET" :: t := by
  rcases hp : env.envconfigProcess "REPOCKET" ⟨"", "", ""⟩ with ⟨cfg1, _ | e⟩ <;>
    simp [makeConfig, hp, logFatal, World.emit, Result.world, queryCalls,
      List.countP_append, List.countP_cons]

theorem authenticate_trace (env : Env) (cfg : Config) (w : World) :
    queryCalls (authenticate env cfg w).world.trace = queryCalls w.trace ∧
      ∃ t, (authenticate env cfg w).world.trace = w.trace ++ t := by
  unfold authenticate
  rcases h1 : env.LoadLocalConfig with ⟨tok, _ | e⟩ | m | m
  · simp [callOut, Result.andThen, World.emit, Result.world, queryCalls,
      List.countP_append, List.countP_cons]
  · rcases h2 : env.Authorize cfg.ConsumerKey with ⟨tok2, _ | e2⟩ | m | m
    · rcases h3 : env.SaveLocalConfig tok2 with (_ | e3) | m | m <;>
        simp [callOut, Result.andThen, World.emit, Result.world, queryCalls, logPrint,
          logFatal, h2, h3, List.countP_append, List.countP_cons]
    · simp [callOut, Result.andThen, World.emit, Result.world, queryCalls, logPrint,
        logFatal, h2, List.countP_append, List.countP_cons]
    · simp [callOut, Result.andThen, World.emit, Result.world, queryCalls, logPrint,
        logFatal, h2, List.countP_append, List.countP_cons]
    · simp [callOut, Result.andThen, World.emit, Result.world, queryCalls, logPrint,
        logFatal, h2, List.countP_append, List.countP_cons]
  · simp [callOut, Result.andThen, World.emit, Result.world, queryCalls,
      List.countP_append, List.countP_cons]
  · simp [callOut, Result.andThen, World.emit, Result.world, queryCalls,
      List.countP_append, List.countP_cons]

theorem main_wrong_count (env : Env) (prog : String) (rest : List String) (w : World)
    (h : rest.length ≠ 1) :
    main env (prog :: rest) w =
      .fatal (usageMessage prog) ⟨w.fs, w.trace ++ [.log (usageMessage prog)]⟩ := by
  simp [main, h, usageAndExit, logFatal, World.emit, Result.andThen]

theorem main_unknown_command (env : Env) (prog cmd : String) (w : World)
    (hd : cmd ≠ "dump") (hl : cmd ≠ "list") (hn : cmd ≠ "next") :
    main env [prog, cmd] w =
      (makeConfig env w).andThen fun cfg w2 =>
        (authenticate env cfg w2).andThen fun _ w3 =>
          .fatal (usageMessage prog) ⟨w3.fs, w3.trace ++ [.log (usageMessage prog)]⟩ := by
  simp [main, hd, hl, hn, usageAndExit, logFatal, World.emit, Result.andThen]

/-! ## The claims about `main` and `authenticate` -/

/-- C8, as the claim states it, fails for a single unknown subcommand: `main` has run
`makeConfig` (the `envconfig` call) and `authenticate` (the read of the local token) when
it ends the process with the usage message. -/
theorem main_unknown_command_counterexample :
    (main okEnv ["repocket", "foo"] emptyWorld).exitStatus = some 1 ∧
      (main okEnv ["repocket", "foo"] emptyWorld).world.trace =
        [.envconfigProcess "REPOCKET", .LoadLocalConfig, .log (usageMessage "repocket")] ∧
      Event.envconfigProcess "REPOCKET"
        ∈ (main okEnv ["repocket", "foo"] emptyWorld).world.trace ∧
      Event.LoadLocalConfig ∈ (main okEnv ["repocket", "foo"] emptyWorld).world.trace := by
  decide

/-- C8 (amended): for every argument vector with no subcommand or with more than one
argument, `main` ends the process at once with the usage message and exit status 1, before
`makeConfig`, `authenticate` or any query is run.  For a single argument other than
`dump`, `list` or `next`, `main` first runs `makeConfig` and `authenticate`; it does not
return, it runs no query, and when both calls return it ends the process with the usage
message and exit status 1. -/
theorem main_usage :
    (∀ (env : Env) (prog : String) (rest : List String) (w : World), rest.length ≠ 1 →
      main env (prog :: rest) w =
          .fatal (usageMessage prog) ⟨w.fs, w.trace ++ [.log (usageMessage prog)]⟩ ∧
        (main env (prog :: rest) w).exitStatus = some 1) ∧
    (∀ (env : Env) (prog cmd : String) (w : World),
      cmd ≠ "dump" → cmd ≠ "list" → cmd ≠ "next" →
      (main env [prog, cmd] w).exitStatus ≠ none ∧
        queryCalls (main env [prog, cmd] w).world.trace = queryCalls w.trace ∧
        (∃ t, (main env [prog, cmd] w).world.trace =
          w.trace ++ .envconfigProcess "REPOCKET" :: t) ∧
        (∀ cfg w1 cfg1 w2, makeConfig env w = .ok cfg w1 →
          authenticate env cfg w1 = .ok cfg1 w2 →
          main env [prog, cmd] w =
              .fatal (usageMessage prog) ⟨w2.fs, w2.trace ++ [.log (usageMessage prog)]⟩ ∧
            (main env [prog, cmd] w).exitStatus = some 1)) := by
  constructor
  · intro env prog rest w h
    rw [main_wrong_count env prog rest w h]
    exact ⟨rfl, rfl⟩
  · intro env prog cmd w hd hl hn
    rw [main_unknown_command env prog cmd w hd hl hn]
    obtain ⟨_, hmq, tm, hmt⟩ := makeConfig_trace env w
    cases hm : makeConfig env w with
    | ok cfg w1 =>
      rw [hm] at hmq hmt
      simp only [Result.world] at hmq hmt
      obtain ⟨haq, ta, hat⟩ := authenticate_trace env cfg w1
      cases ha : authenticate env cfg w1 with
      | ok cfg1 w2 =>
        rw [ha] at haq hat
        simp only [Result.world] at haq hat
        simp only [Result.andThen, ha]
        refine ⟨by simp [Result.exitStatus], ?_, ?_, ?_⟩
        · have hq : queryCalls (w2.trace ++ [Event.log (usageMessage prog)])
              = queryCalls w2.trace := by
            simp [queryCalls, List.countP_append, List.countP_cons]
          simp only [Result.world]
          rw [hq, haq, hmq]
        · refine ⟨tm ++ ta ++ [.log (usageMessage prog)], ?_⟩
          simp [Result.world, hat, hmt]
        · intro cfg' w1' cfg1' w2' h1 h2
          cases h1
          rw [ha] at h2
          cases h2
          exact ⟨rfl, rfl⟩
      | fatal m w2 =>
        rw [ha] at haq hat
        simp only [Result.world] at haq hat
        simp only [Result.andThen, ha]
        refine ⟨by simp [Result.andThen, Result.exitStatus], ?_, ?_, ?_⟩
        · simpa [Result.andThen, Result.world] using haq.trans hmq
        · refine ⟨tm ++ ta, ?_⟩
          simp [Result.andThen, Result.world, hat, hmt]
        · intro cfg' w1' cfg1' w2' h1 h2
          cases h1
          rw [ha] at h2
          cases h2
      | panic m w2 =>
        rw [ha] at haq hat
        simp only [Result.world] at haq hat
        simp only [Result.andThen, ha]
        refine ⟨by simp [Result.andThen, Result.exitStatus], ?_, ?_, ?_⟩
        · simpa [Result.andThen, Result.world] using haq.trans hmq
        · refine ⟨tm ++ ta, ?_⟩
          simp [Result.andThen, Result.world, hat, hmt]
        · intro cfg' w1' cfg1' w2' h1 h2
          cases h1
          rw [ha] at h2
          cases h2
    | fatal m w1 =>
      rw [hm] at hmq hmt
      simp only [Result.world] at hmq hmt
      refine ⟨by simp [Result.andThen, Result.exitStatus], ?_, ?_, ?_⟩
      · simpa [Result.andThen, Result.world] using hmq
      · exact ⟨tm, by simpa [Result.andThen, Result.world] using hmt⟩
      · intro cfg' w1' cfg1' w2' h1
        cases h1
    | panic m w1 =>
      rw [hm] at hmq hmt
      simp only [Result.world] at hmq hmt
      refine ⟨by simp [Result.andThen, Result.exitStatus], ?_, ?_, ?_⟩
      · simpa [Result.andThen, Result.world] using hmq
      · exact ⟨tm, by simpa [Result.andThen, Result.world] using hmt⟩
      · intro cfg' w1' cfg1' w2' h1
        cases h1

/-- C8 (amended) at concrete inputs: no subcommand, and the unknown subcommand `foo`. -/
theorem main_usage_witness :
    (main okEnv ["repocket"] emptyWorld).exitStatus = some 1 ∧
      queryCalls (main okEnv ["repocket", "foo"] emptyWorld).world.trace
        = queryCalls emptyWorld.trace :=
  ⟨(main_usage.1 okEnv "repocket" [] emptyWorld (by decide)).2,
    (main_usage.2 okEnv "repocket" "foo" emptyWorld (by decide) (by decide) (by decide)).2.1⟩

/-- C9: when the local token store returns a persisted token without error,
`authenticate` sets the access token of the configuration to that token and returns after
the single call `LoadLocalConfig`: neither `pocket.Authorize` nor `SaveLocalConfig` is
invoked. -/
theorem authenticate_stored_token (env : Env) (cfg : Config) (w : World) (tok : String)
    (h : env.LoadLocalConfig = .returns (tok, none)) :
    authenticate env cfg w =
        .ok ⟨cfg.ConsumerKey, tok, cfg.OutputDir⟩ ⟨w.fs, w.trace ++ [.LoadLocalConfig]⟩ ∧
      authFlowCalls (authenticate env cfg w).world.trace = authFlowCalls w.trace := by
  have he : authenticate env cfg w =
      .ok ⟨cfg.ConsumerKey, tok, cfg.OutputDir⟩ ⟨w.fs, w.trace ++ [.LoadLocalConfig]⟩ := by
    simp [authenticate, h, callOut, Result.andThen, World.emit]
  rw [he]
  refine ⟨rfl, ?_⟩
  simp [Result.world, authFlowCalls, List.countP_append, List.countP_cons]

/-- C9 at a concrete input: the token `token` is stored locally. -/
theorem authenticate_stored_token_witness :
    okEnv.LoadLocalConfig = .returns ("token", none) ∧
      authenticate okEnv ⟨"key", "", "out"⟩ emptyWorld =
        .ok ⟨"key", "token", "out"⟩ ⟨emptyWorld.fs, emptyWorld.trace ++ [.LoadLocalConfig]⟩ :=
  ⟨rfl, (authenticate_stored_token okEnv ⟨"key", "", "out"⟩ emptyWorld "token" rfl).1⟩

end Repocket
